import Mathlib

/-!
Verification of the JobXpress search/scoring core against its
natural-language specification.

The definitions below are a shallow embedding of the Python sources:
  - services/search_engine_v2.py  (SearchEngineV2: dedup, smart filters, pipeline)
  - services/llm_engine.py        (LLMEngine: LLM scoring and heuristic fallback)
  - core/retry.py                 (CircuitBreaker)
Python strings are Lean `String`s (case folding is modelled for ASCII,
matching the behaviour of `str.lower` on the ASCII inputs used in the
proofs); Python `datetime` values are modelled as an integer number of
seconds on the proleptic-Gregorian timeline, with `datetime.now()` passed
explicitly as a parameter `now`; the weighted sum with `float` weights
0.4/0.3/0.3 is modelled by its exact value (the binary-float evaluation
can differ from the exact one only at integer ties of `int(...)`, which
the concrete inputs used below avoid); fallible operations return `Option`
or `Except`.
-/

namespace JobXpress

/-! ### String helpers (Python `str.lower`, `in`, `strip`, `split`) -/

/-- Model of Python `str.lower` (ASCII case folding). -/
def lowerStr (s : String) : String := String.mk (s.data.map Char.toLower)

/-- `needle` occurs at the head of `hay` (list version of startswith). -/
def headMatches : List Char → List Char → Bool
  | [], _ => true
  | _ :: _, [] => false
  | a :: as, b :: bs => a = b && headMatches as bs

/-- `needle` occurs contiguously somewhere in `hay`. -/
def subSearch (needle : List Char) : List Char → Bool
  | [] => headMatches needle []
  | c :: rest => headMatches needle (c :: rest) || subSearch needle (rest)

/-- Model of Python `needle in hay` on strings (substring containment). -/
def containsSub (hay needle : String) : Bool := subSearch needle.data hay.data

/-- Model of Python `s.startswith(p)`. -/
def startsWithPy (s p : String) : Bool := headMatches p.data s.data

/-- Digit run to a number, `none` when empty or non-digit. -/
def digitsCore (ds : List Char) : Option Nat :=
  if ds.isEmpty then none
  else if ds.all Char.isDigit then
    some (ds.foldl (fun acc c => acc * 10 + (c.toNat - '0'.toNat)) 0)
  else none

/-- Model of Python `int(word)` on a whitespace-free token: an optional
sign followed by at least one ASCII digit (underscore grouping is not
modelled; no input below uses it). -/
def pyParseInt (w : List Char) : Option Int :=
  match w with
  | '-' :: ds => (digitsCore ds).map (fun n => -(n : Int))
  | '+' :: ds => (digitsCore ds).map (fun n => (n : Int))
  | ds => (digitsCore ds).map (fun n => (n : Int))

/-- Split a character list on a separator character (Python `str.split(sep)`:
empty pieces are kept). -/
def splitOnChar (sep : Char) : List Char → List (List Char)
  | [] => [[]]
  | c :: rest =>
      let tail := splitOnChar sep rest
      if c = sep then [] :: tail
      else match tail with
        | [] => [[c]]
        | p :: ps => (c :: p) :: ps

/-- Model of Python `s.split()` (split on whitespace; empty pieces are kept,
which is equivalent here because `pyParseInt []` fails). -/
def splitWs (cs : List Char) : List (List Char) :=
  match cs with
  | [] => [[]]
  | c :: rest =>
      let tail := splitWs rest
      if c.isWhitespace then [] :: tail
      else match tail with
        | [] => [[c]]
        | p :: ps => (c :: p) :: ps

/-- Model of Python `s.strip()`: drop leading and trailing whitespace. -/
def trimChars (cs : List Char) : List Char :=
  ((cs.dropWhile Char.isWhitespace).reverse.dropWhile Char.isWhitespace).reverse

/-! ### Dates (`SearchEngineV2._parse_date`, search_engine_v2.py lines 366-423)

A parsed `datetime` is an `Int` of seconds on the proleptic-Gregorian
timeline (the origin is irrelevant: only differences and comparisons are
used, exactly as in the source). -/

def isLeap (y : Nat) : Bool := (y % 4 = 0 && y % 100 ≠ 0) || y % 400 = 0

def daysInMonth (y m : Nat) : Nat :=
  if m = 2 then (if isLeap y then 29 else 28)
  else if m = 4 ∨ m = 6 ∨ m = 9 ∨ m = 11 then 30
  else 31

/-- Day count of a civil date (Hinnant's `days_from_civil`, shifted so that
0000-03-01 is day 0; a monotone bijection of the timeline, so comparisons
and differences agree with Python `datetime`). Valid for `1 ≤ y`. -/
def daysFromCivil (y m d : Nat) : Nat :=
  let yp : Nat := if m ≤ 2 then y - 1 else y
  let era := yp / 400
  let yoe := yp % 400
  let mp := if m > 2 then m - 3 else m + 9
  let doy := (153 * mp + 2) / 5 + d - 1
  let doe := yoe * 365 + yoe / 4 - yoe / 100 + doy
  era * 146097 + doe

/-- A fixed-width numeric strptime field: 1 to `maxLen` ASCII digits. -/
def parseField (s : List Char) (maxLen : Nat) : Option Nat :=
  if 1 ≤ s.length ∧ s.length ≤ maxLen ∧ s.all Char.isDigit then
    some (s.foldl (fun acc c => acc * 10 + (c.toNat - '0'.toNat)) 0)
  else none

/-- Validity check performed by the `datetime` constructor. -/
def validYmd (y m d : Nat) : Bool :=
  1 ≤ y && y ≤ 9999 && 1 ≤ m && m ≤ 12 && 1 ≤ d && d ≤ daysInMonth y m

def ymdToSeconds (y m d : Nat) : Int := (daysFromCivil y m d : Int) * 86400

/-- strptime with format `"%Y-%m-%d"`. -/
def parseIsoDate (s : List Char) : Option Int :=
  match splitOnChar '-' s with
  | [ys, ms, ds] => do
      let y ← parseField ys 4
      let m ← parseField ms 2
      let d ← parseField ds 2
      if validYmd y m d then some (ymdToSeconds y m d) else none
  | _ => none

/-- strptime with format `"%d/%m/%Y"`. -/
def parseFrDate (s : List Char) : Option Int :=
  match splitOnChar '/' s with
  | [ds, ms, ys] => do
      let y ← parseField ys 4
      let m ← parseField ms 2
      let d ← parseField ds 2
      if validYmd y m d then some (ymdToSeconds y m d) else none
  | _ => none

def parseHms (s : List Char) : Option Int :=
  match splitOnChar ':' s with
  | [hs, ms, ss] => do
      let h ← parseField hs 2
      let m ← parseField ms 2
      let sec ← parseField ss 2
      if h ≤ 23 && m ≤ 59 && sec ≤ 59 then
        some ((h : Int) * 3600 + (m : Int) * 60 + (sec : Int))
      else none
  | _ => none

/-- strptime with format `"%Y-%m-%dT%H:%M:%S"`; the literal uppercase `T`
never matches the lowercased input, so in context this branch is dead code
(faithfully reproduced). -/
def parseIsoDateTime (s : List Char) : Option Int :=
  match splitOnChar 'T' s with
  | [dpart, tpart] => do
      let d ← parseIsoDate dpart
      let t ← parseHms tpart
      some (d + t)
  | _ => none

/-- strptime with format `"%Y-%m-%dT%H:%M:%SZ"`; dead for the same reason. -/
def parseIsoDateTimeZ (s : List Char) : Option Int :=
  match splitOnChar 'T' s with
  | [dpart, tpart] =>
      match splitOnChar 'Z' tpart with
      | [hms, []] => do
          let d ← parseIsoDate dpart
          let t ← parseHms hms
          some (d + t)
      | _ => none
  | _ => none

/-- First word of the string that Python `int` accepts. -/
def firstIntWord (s : List Char) : Option Int :=
  (splitWs s).foldl (fun acc w => acc.orElse (fun _ => pyParseInt w)) none

/-- Substring test on character lists. -/
def containsSubL (hay needle : List Char) : Bool := subSearch needle hay

/-- `SearchEngineV2._parse_date`: tries the four strptime formats in order,
then the relative fallbacks; `now` models `datetime.now()` (seconds). -/
def parseDate (now : Int) (dateStr : Option String) : Option Int :=
  match dateStr with
  | none => none
  | some raw =>
    if raw.data = [] then none else
    let t := (trimChars raw.data).map Char.toLower
    match parseIsoDate t with
    | some v => some v
    | none =>
    match parseFrDate t with
    | some v => some v
    | none =>
    match parseIsoDateTime t with
    | some v => some v
    | none =>
    match parseIsoDateTimeZ t with
    | some v => some v
    | none =>
    match (if containsSubL t "jour".data || containsSubL t "day".data then firstIntWord t else none) with
    | some n => some (now - n * 86400)
    | none =>
    match (if containsSubL t "semaine".data || containsSubL t "week".data then firstIntWord t else none) with
    | some n => some (now - n * 604800)
    | none =>
    if containsSubL t "aujourd".data || containsSubL t "today".data then some now
    else if containsSubL t "hier".data || containsSubL t "yesterday".data then some (now - 86400)
    else none

/-! ### Fuzzy title similarity (`thefuzz.fuzz.ratio`)

`fuzz.ratio` is the indel similarity `200 * lcs(a,b) / (|a| + |b|)`
rounded to the nearest integer (ties to even, as Python `round`); for two
empty strings it is 100. The longest-common-subsequence length is computed
by a row-by-row dynamic program so that concrete instances reduce in the
kernel. -/

/-- One DP row step: `prev` holds LCS values of the previous `a`-prefix
against all `b`-prefixes starting at the current position; `cur` is the
value just computed on the new row. -/
def rowStep (a : Char) : List Char → List Nat → Nat → List Nat
  | [], _, _ => []
  | b :: bs, prev, cur =>
      match prev with
      | [] => []
      | p0 :: rest =>
          let p1 := match rest with | q :: _ => q | [] => 0
          let v := if a = b then p0 + 1 else max cur p1
          v :: rowStep a bs rest v

/-- Length of the longest common subsequence of two character lists. -/
def lcsLen (as bs : List Char) : Nat :=
  let init := List.replicate (bs.length + 1) 0
  let last := as.foldl (fun prev a => 0 :: rowStep a bs prev 0) init
  last.getLastD 0

/-- Round `p / q` to the nearest integer, ties to even (Python `round`). -/
def roundNearestEven (p q : Nat) : Nat :=
  let d := p / q
  let r := p % q
  if 2 * r < q then d
  else if q < 2 * r then d + 1
  else if d % 2 = 0 then d else d + 1

/-- `fuzz.ratio` on two character lists. -/
def fuzzRatio (a b : List Char) : Nat :=
  let n := a.length + b.length
  if n = 0 then 100 else roundNearestEven (200 * lcsLen a b) n

/-! ### Company slug (`slugify(company, lowercase=True)`)

Modelled for ASCII input: lowercase, split on runs of non-alphanumeric
characters, join the words with hyphens (python-slugify additionally
transliterates diacritics, which no input below exercises). -/

def slugWords (cs : List Char) : List (List Char) :=
  (cs.foldr
    (fun c acc =>
      let (cur, done) := acc
      if c.isAlphanum then (c.toLower :: cur, done)
      else ([], if cur.isEmpty then done else cur :: done))
    ([], [])
  ) |> (fun st => if st.1.isEmpty then st.2 else st.1 :: st.2)

def pySlugify (s : String) : String :=
  String.intercalate "-" ((slugWords s.data).map String.mk)

/-! ### Data model (models/job_offer.py, models/candidate.py)

`JobOffer.ai_scores` models the `score_technical` / `score_structural` /
`score_experience` entries of the `ai_analysis` dict attached by the
scorer (the only entries the claims mention); `CandidateProfile.work_type`
is the string value of the `WorkType` enum (a `str` subclass, compared
with string literals in the source). -/

structure JobOffer where
  title : String
  company : String
  location : Option String := some "Non spécifié"
  description : String
  url : String
  date_posted : Option String := none
  contract_type : Option String := none
  is_remote : Bool := false
  work_type : Option String := none
  source : Option String := none
  salary_warning : Bool := false
  is_agency : Bool := false
  match_score : Int := 0
  ai_scores : Option (Int × Int × Int) := none
  deriving DecidableEq, Repr

structure CandidateProfile where
  job_title : String
  location : String := "France"
  contract_type : String := "Non spécifié"
  work_type : String := "Tous"
  experience_level : String := "Non spécifié"
  cv_text : String := ""
  deriving DecidableEq, Repr

/-! ### Deduplication (`SearchEngineV2._deduplicate_fuzzy`, lines 231-290)

`seen_keys` is a Python dict from the key string
`f"{company_slug}|{job_title_lower}"` to `(index, parsed_date)`; insertion
order is iteration order, and updating an existing key keeps its position.
Since a slug never contains `"|"`, splitting the key string on the first
`"|"` recovers exactly the pair it was built from, so the key is modelled
as the pair `DKey` directly (the `ValueError` branch of the source is then
unreachable). -/

structure DKey where
  slug : String
  tl : String
  deriving DecidableEq, Repr

abbrev SeenKeys := List (DKey × Nat × Option Int)

/-- The scan over `seen_keys`: first key with the same company slug and
title similarity > 90 (keys with a different slug or ratio ≤ 90 are
skipped, as by the `continue` / fall-through of the loop). -/
def findDup (slug tl : String) : SeenKeys → Option (DKey × Nat × Option Int)
  | [] => none
  | e :: rest =>
      if e.1.slug = slug ∧ fuzzRatio tl.data e.1.tl.data > 90 then some e
      else findDup slug tl rest

/-- Company slug of a posting: `slugify(job.company or "unknown")`. -/
def companySlug (job : JobOffer) : String :=
  pySlugify (if job.company = "" then "unknown" else job.company)

/-- Normalized title of a posting: `job.title.lower().strip()`. -/
def titleLower (job : JobOffer) : String :=
  String.mk (trimChars (job.title.data.map Char.toLower))

/-- One iteration of the dedup loop body. -/
def dedupStep (now : Int) (st : List JobOffer × SeenKeys) (job : JobOffer) :
    List JobOffer × SeenKeys :=
  let unique := st.1
  let seen := st.2
  let slug := companySlug job
  let tl := titleLower job
  match findDup slug tl seen with
  | some (k, idx, existingDate) =>
      -- duplicate found: keep the newer posting when both dates parse
      let jobDate := parseDate now job.date_posted
      match jobDate, existingDate with
      | some a, some b =>
          if b < a then
            (unique.set idx job,
             seen.map (fun e => if e.1 = k then (k, idx, some a) else e))
          else (unique, seen)
      | _, _ => (unique, seen)
  | none =>
      (unique ++ [job], seen ++ [(⟨slug, tl⟩, unique.length, parseDate now job.date_posted)])

/-- `SearchEngineV2._deduplicate_fuzzy` together with its final
bookkeeping state. -/
def dedupRun (now : Int) (jobs : List JobOffer) : List JobOffer × SeenKeys :=
  jobs.foldl (dedupStep now) ([], [])

/-- `SearchEngineV2._deduplicate_fuzzy`: the returned `unique` list. -/
def dedupFuzzy (now : Int) (jobs : List JobOffer) : List JobOffer :=
  (dedupRun now jobs).1

/-! ### Post-filters (`SearchEngineV2._apply_smart_filters`, lines 292-364) -/

/-- `AGENCY_PATTERNS` (search_engine_v2.py lines 34-45). -/
def AGENCY_PATTERNS : List String :=
  ["notre client",
   "pour le compte de",
   "notre partenaire",
   "cabinet de recrutement",
   "notre mandant",
   "client final",
   "nous recrutons pour",
   "pour l'un de nos clients",
   "notre client recherche",
   "nous recherchons pour notre client"]

/-- `SearchEngineV2._has_salary_info`. -/
def hasSalaryInfo (description : String) : Bool :=
  ["€", "eur", "euros", "k€",
   "salaire", "rémunération", "package",
   "fixe", "variable", "brut", "net"].any
    (fun kw => containsSub description kw)

/-- `SearchEngineV2._is_agency`. -/
def isAgency (description : String) : Bool :=
  AGENCY_PATTERNS.any (fun pat => containsSub description pat)

/-- `SearchEngineV2._is_title_match`: exact containment or ratio > 85. -/
def isTitleMatch (jobTitle candidateTitle : String) : Bool :=
  let jobL := lowerStr jobTitle
  let candL := lowerStr candidateTitle
  containsSub jobL candL || fuzzRatio jobL.data candL.data > 85

/-- The optional filter dict: only the two keys the filter reads. -/
structure Filters where
  exclude_agencies : Option Bool := none
  max_days_old : Option Int := none
  deriving DecidableEq, Repr

/-- The loop body of `_apply_smart_filters` for one posting: attaches the
`salary_warning` / `is_agency` flags, then applies the agency exclusion
followed by the freshness cutoff (waived for strong title matches;
unparseable dates are never dropped). The loop treats each posting
independently, so the whole filter is a `filterMap`. -/
def smartFilterOne (now : Int) (filters : Filters) (candidate : CandidateProfile)
    (job : JobOffer) : Option JobOffer :=
  let excludeAgencies := filters.exclude_agencies.getD true
  let maxDaysOld := filters.max_days_old.getD 14
  let cutoffDate := now - maxDaysOld * 86400
  let descriptionLower := lowerStr job.description
  let job := { job with
    salary_warning := ! hasSalaryInfo descriptionLower,
    is_agency := isAgency descriptionLower }
  if excludeAgencies && job.is_agency then none
  else
    match parseDate now job.date_posted with
    | some jobDate =>
        if jobDate < cutoffDate && ! isTitleMatch job.title candidate.job_title then none
        else some job
    | none => some job

/-- `SearchEngineV2._apply_smart_filters`. -/
def applySmartFilters (now : Int) (filters : Filters) (candidate : CandidateProfile)
    (jobs : List JobOffer) : List JobOffer :=
  jobs.filterMap (smartFilterOne now filters candidate)

/-! ### Scorer (`LLMEngine`, services/llm_engine.py)

The LLM's JSON object is a dynamically-typed dict; a field value is
modelled by `JVal`. `jnum` is a JSON number, modelled as an integer — the
prompt requests integer scores 0-100, and a fractional response would only
shift where `int(...)` truncates (a Python `bool` is an `int` subclass and
is covered by `jbool`); `jother` covers values such as strings or lists
whose multiplication by the float weight raises `TypeError`.
`data.get(key, 0)` yields 0 only when the key is absent; a present `null`
becomes `None`, and `None * 0.4` raises `TypeError`, which the enclosing
`except Exception` turns into the fallback scoring. -/

inductive JVal where
  | jnum (n : Int)
  | jbool (b : Bool)
  | jnull
  | jmissing
  | jother
  deriving DecidableEq, Repr

/-- The value of `data.get(k, 0) * weight` as a number, or the exception it
raises. -/
def JVal.asScore : JVal → Except String Int
  | .jnum n => .ok n
  | .jbool b => .ok (if b then 1 else 0)
  | .jmissing => .ok 0
  | .jnull => .error "TypeError"
  | .jother => .error "TypeError"

/-- `data.get("is_school_scheme") is True`: only the boolean `True`. -/
def JVal.isTrueLit : JVal → Bool
  | .jbool true => true
  | _ => false

/-- The fields of the parsed LLM response the scorer reads. -/
structure LLMData where
  score_technical : JVal := .jmissing
  score_structural : JVal := .jmissing
  score_experience : JVal := .jmissing
  is_school_scheme : JVal := .jmissing
  deriving DecidableEq, Repr

/-- `int(0.4 * t + 0.3 * s + 0.3 * e)`: Python `int` truncates the weighted
sum toward zero; on integer sub-scores the exact sum is `(4t+3s+3e)/10`,
and `Int.tdiv` is exactly toward-zero truncation. -/
def weightedComposite (t s e : Int) : Int := (4 * t + 3 * s + 3 * e).tdiv 10

/-- `LLMEngine._fallback_scoring` (llm_engine.py lines 151-189): the
deterministic heuristic used whenever the LLM call fails. Returns the
posting with `match_score` and the three identical heuristic sub-scores
attached. -/
def fallbackScoring (candidate : CandidateProfile) (offer : JobOffer) : JobOffer :=
  let score : Int := 40
  -- +20 when the candidate title occurs in the offer title, else +10 on
  -- any shared word
  let score :=
    if containsSub (lowerStr offer.title) (lowerStr candidate.job_title) then score + 20
    else if (splitWs (lowerStr candidate.job_title).data).any
        (fun word => containsSubL (lowerStr offer.title).data word) then score + 10
    else score
  -- +15 on matching location
  let score :=
    if containsSub (lowerStr (offer.location.getD "")) (lowerStr candidate.location) then
      score + 15
    else score
  -- +10 for a remote offer when the candidate wants full remote
  let score :=
    if offer.is_remote && candidate.work_type = "Full Remote" then score + 10
    else score
  -- -30 (floored at 0) when school keywords appear in the description
  let descLower := lowerStr offer.description
  let score :=
    if ["formation", "école", "cfa", "campus", "academy", "bootcamp"].any
        (fun kw => containsSub descLower kw) then max (score - 30) 0
    else score
  { offer with
    match_score := min score 75,
    ai_scores := some (score, score, score) }

/-- The school-keyword check of the fallback, exposed for the theorems. -/
def fallbackSchoolHit (offer : JobOffer) : Bool :=
  ["formation", "école", "cfa", "campus", "academy", "bootcamp"].any
    (fun kw => containsSub (lowerStr offer.description) kw)

/-- `LLMEngine._analyze_single_offer` (llm_engine.py lines 39-149) after
the HTTP exchange: `apiKeySet` models `bool(self.api_key)`;
`llmResult` is the outcome of the POST + JSON parse (`.error` covers
timeout, HTTP error and malformed JSON, all of which are caught and routed
to the fallback). On success the weighted composite is computed from the
raw field values (weights 0.4 / 0.3 / 0.3), then forced to 0 when
`is_school_scheme` is the boolean `True`; a `TypeError` raised while
multiplying (null or non-numeric field) is caught by the blanket
`except Exception` and also routed to the fallback. -/
def analyzeSingleOffer (candidate : CandidateProfile) (offer : JobOffer)
    (apiKeySet : Bool) (llmResult : Except String LLMData) : JobOffer :=
  if ¬ apiKeySet then
    { offer with match_score := 50 }
  else
    match llmResult with
    | .error _ => fallbackScoring candidate offer
    | .ok data =>
        let computed : Except String JobOffer := do
          let sTech ← data.score_technical.asScore
          let sStruct ← data.score_structural.asScore
          let sExp ← data.score_experience.asScore
          let finalScore := weightedComposite sTech sStruct sExp
          let finalScore := if data.is_school_scheme.isTrueLit then 0 else finalScore
          pure { offer with
                 match_score := finalScore,
                 ai_scores := some (sTech, sStruct, sExp) }
        match computed with
        | .ok result => result
        | .error _ => fallbackScoring candidate offer

/-! ### Circuit breaker (`core/retry.py`, lines 72-145)

`state` is the literal Python string; `call` takes the current time and
the outcome the wrapped coroutine would produce, and returns the new
breaker together with the call's result (`.error` models the raised
exception). While OPEN the result does not depend on the outcome
argument: the wrapped function is not invoked. -/

structure CircuitBreaker where
  failure_count : Nat := 0
  failure_threshold : Nat := 5
  recovery_timeout : Int := 60
  last_failure_time : Option Int := none
  state : String := "CLOSED"
  deriving DecidableEq, Repr

/-- `CircuitBreaker._check_recovery`. -/
def CircuitBreaker.checkRecovery (now : Int) (cb : CircuitBreaker) : CircuitBreaker :=
  match cb.last_failure_time with
  | some t =>
      if cb.state = "OPEN" ∧ now - t > cb.recovery_timeout then
        { cb with state := "HALF_OPEN" }
      else cb
  | none => cb

/-- `CircuitBreaker.call`. -/
def CircuitBreaker.call (cb : CircuitBreaker) (now : Int)
    (outcome : Except String α) : CircuitBreaker × Except String α :=
  let cb := cb.checkRecovery now
  if cb.state = "OPEN" then
    (cb, .error "Circuit is OPEN - Service unavailable")
  else
    match outcome with
    | .ok v =>
        if cb.state = "HALF_OPEN" then
          ({ cb with state := "CLOSED", failure_count := 0 }, .ok v)
        else (cb, .ok v)
    | .error e =>
        let fc := cb.failure_count + 1
        let cb := { cb with failure_count := fc, last_failure_time := some now }
        if fc ≥ cb.failure_threshold then
          ({ cb with state := "OPEN" }, .error e)
        else (cb, .error e)

/-- `CircuitBreaker.reset`. -/
def CircuitBreaker.resetCB (cb : CircuitBreaker) : CircuitBreaker :=
  { cb with failure_count := 0, state := "CLOSED", last_failure_time := none }

/-! ### Pipeline (`SearchEngineV2.find_jobs_v2`, lines 68-137)

The per-source fetches run under `asyncio.gather(..., return_exceptions=True)`;
their outcomes are the `sourceResults` parameter (`.error` = the task
raised). Enrichment outcomes are the `fetches` parameter: for each posting,
`some text` is the extracted page text, `none` a fetch/extract failure
(`_fetch_single_url` swallows every exception and keeps the original
description). -/

/-- Aggregation loop (lines 100-116), one source at a time: skip failed
sources, tag postings that have no source yet (`if not job.source` —
`None` or `""`). `i` is the `enumerate` index. -/
def aggregateGo (sourceNames : List String) : Nat → List (Except String (List JobOffer)) → List JobOffer
  | _, [] => []
  | i, r :: rest =>
      let src := if h : i < sourceNames.length then sourceNames.get ⟨i, h⟩ else s!"source_{i}"
      (match r with
       | .error _ => []
       | .ok jobs =>
           jobs.map (fun job =>
             if job.source.getD "" = "" then { job with source := some src } else job))
      ++ aggregateGo sourceNames (i + 1) rest

/-- Aggregation of all per-source outcomes. -/
def aggregateSources (results : List (Except String (List JobOffer))) : List JobOffer :=
  aggregateGo ["jsearch", "active_jobs", "serpapi"] 0 results

/-- `SearchEngine._fetch_single_url` (search_engine.py lines 337-346):
replace the description only by an extraction of more than 200 characters;
any failure leaves the posting untouched. -/
def fetchSingleUrl (fetched : Option String) (offer : JobOffer) : JobOffer :=
  if ¬ startsWithPy offer.url "http" then offer
  else
    match fetched with
    | some text =>
        if text.data.length > 200 then
          { offer with description := String.mk (text.data.take 5000) }
        else offer
    | none => offer

/-- `SearchEngine._enrich_jobs_with_full_content`: one fetch per posting. -/
def enrichJobs : List JobOffer → List (Option String) → List JobOffer
  | [], _ => []
  | j :: js, [] => fetchSingleUrl none j :: enrichJobs js []
  | j :: js, f :: fs => fetchSingleUrl f j :: enrichJobs js fs

/-- `SearchEngineV2.find_jobs_v2`: aggregation → dedup → smart filters →
enrichment of the first `limit` postings. Returns `[]` when every source
failed or returned nothing. -/
def findJobsV2 (now : Int) (candidate : CandidateProfile) (filters : Option Filters)
    (limit : Nat) (sourceResults : List (Except String (List JobOffer)))
    (fetches : List (Option String)) : List JobOffer :=
  let filters := filters.getD {}
  let allJobs := aggregateSources sourceResults
  if allJobs.isEmpty then []
  else
    let uniqueJobs := dedupFuzzy now allJobs
    let filteredJobs := applySmartFilters now filters candidate uniqueJobs
    let jobsToEnrich := filteredJobs.take limit
    enrichJobs jobsToEnrich fetches

/-! ### Concrete fixtures used by the counterexample and witness theorems -/

/-- A minimal candidate profile. -/
def candA : CandidateProfile :=
  { job_title := "dev", location := "paris" }

/-- An offer matching `candA`'s title and location whose description is a
training-program advertisement. -/
def offerSchool : JobOffer :=
  { title := "dev", company := "Acme", location := some "paris",
    description := "formation", url := "http://a.example/1" }

/-- An offer with an empty description. -/
def offerPlain : JobOffer :=
  { title := "dev", company := "Acme", location := some "paris",
    description := "", url := "http://a.example/2" }

/-- An out-of-range LLM response (no clamping exists in the scorer). -/
def dataOutOfRange : LLMData :=
  { score_technical := .jnum 201, score_structural := .jnum 150,
    score_experience := .jnum 150 }

/-- Two postings from different companies sharing one apply URL. -/
def offerUrlDup1 : JobOffer :=
  { title := "alpha", company := "Acme", description := "", url := "http://same.example/x" }

def offerUrlDup2 : JobOffer :=
  { title := "alpha", company := "Zeta", description := "", url := "http://same.example/x" }

/-- Three same-company postings whose titles chain through the similarity
threshold: `offerChainC`'s title is within ratio > 90 of `offerChainB`'s,
`offerChainB`'s within ratio > 90 of `offerChainA`'s, but `offerChainA` and
`offerChainC` are at ratio ≤ 90. -/
def offerChainC : JobOffer :=
  { title := "aaaaaaaaaa", company := "Acme", description := "",
    url := "http://a.example/c", date_posted := some "2024-01-01" }

def offerChainA : JobOffer :=
  { title := "aaaaaaaaaabbb", company := "Acme", description := "",
    url := "http://a.example/a", date_posted := some "2024-01-02" }

def offerChainB : JobOffer :=
  { title := "aaaaaaaaaab", company := "Acme", description := "",
    url := "http://a.example/b", date_posted := some "2024-01-03" }

/-- A posting whose description carries English-language agency phrasing. -/
def offerEnAgency : JobOffer :=
  { title := "dev", company := "Acme", location := some "paris",
    description := "hiring on behalf of our client", url := "http://a.example/en" }

/-- A clean posting (no agency phrasing, no parseable date). -/
def offerClean : JobOffer :=
  { title := "dev", company := "Acme", location := some "paris",
    description := "great job", url := "http://a.example/ok" }

/-- Same-company postings with near-identical titles and parseable dates. -/
def offerDateP : JobOffer :=
  { title := "dev", company := "Acme", description := "",
    url := "http://a.example/p", date_posted := some "2024-01-10" }

def offerDateQ : JobOffer :=
  { title := "dev", company := "Acme", description := "",
    url := "http://a.example/q", date_posted := some "2024-01-12" }

/-! ### Statement vocabulary for the deduplication claims -/

/-- Compatibility of two dedup keys, in scan orientation (`kNew` arrived
after `kOld`): they are not treated as duplicates of one another. -/
def keyCompat (kOld kNew : DKey) : Prop :=
  ¬ (kOld.slug = kNew.slug ∧ fuzzRatio kNew.tl.data kOld.tl.data > 90)

/-- Two postings are not duplicates of one another (`q` arriving after
`p`): different company slugs, or title similarity ratio at most 90. -/
def nonDupPair (p q : JobOffer) : Prop :=
  ¬ (companySlug q = companySlug p ∧
     fuzzRatio (titleLower q).data (titleLower p).data > 90)

instance (p q : JobOffer) : Decidable (nonDupPair p q) := by
  unfold nonDupPair; infer_instance

/-- `q`'s posting date parses strictly later than `p`'s. -/
def newerDate (now : Int) (q p : JobOffer) : Bool :=
  match parseDate now q.date_posted, parseDate now p.date_posted with
  | some a, some b => decide (b < a)
  | _, _ => false

/-- A fresh circuit breaker with threshold 3 (the DeepSeek breaker's
configuration, llm_engine.py line 17). -/
def cbFresh : CircuitBreaker :=
  { failure_threshold := 3, recovery_timeout := 180 }

/-- Fold a list of timed outcomes through `CircuitBreaker.call`. -/
def cbRun (cb : CircuitBreaker) (calls : List (Int × Except String Unit)) : CircuitBreaker :=
  calls.foldl (fun b c => (b.call c.1 c.2).1) cb

/-- The breaker obtained from a fresh one (threshold `n`, cooldown `rt`)
after `n` consecutive failing calls at time `t0`. -/
def cbAfterFails (n : Nat) (rt t0 : Int) : CircuitBreaker :=
  cbRun { failure_threshold := n, recovery_timeout := rt }
    (List.replicate n (t0, .error "boom"))

end JobXpress


/-! ## Theorems -/

namespace JobXpress

/-! ### Claim C1 — the school/training "killer rule" -/

/-- C1 (counterexample): a posting whose description fires the fallback's
school-keyword check but whose composite fallback score is 45, not 0: the
fallback subtracts 30 (floored at 0) instead of forcing the composite to
zero, so the claim as stated is false. -/
theorem C1_counterexample :
    fallbackSchoolHit offerSchool = true ∧
    (fallbackScoring candA offerSchool).match_score = 45 ∧
    (fallbackScoring candA offerSchool).match_score ≠ 0 := by
  decide

/-- C1 (amended): on the LLM path, a response whose three sub-scores are
numeric and whose `is_school_scheme` is the boolean `true` gets composite
score 0 regardless of the sub-scores; on the fallback path a school-keyword
hit subtracts 30 from the heuristic score (floored at 0, hence a final
score of at most 55) but does not force the composite to 0. -/
theorem C1_school_override :
    (∀ (cand : CandidateProfile) (offer : JobOffer) (data : LLMData) (t s e : Int),
      data.score_technical.asScore = .ok t →
      data.score_structural.asScore = .ok s →
      data.score_experience.asScore = .ok e →
      data.is_school_scheme.isTrueLit = true →
      (analyzeSingleOffer cand offer true (.ok data)).match_score = 0) ∧
    (∀ (cand : CandidateProfile) (offer : JobOffer),
      fallbackSchoolHit offer = true →
      (fallbackScoring cand offer).match_score ≤ 55) := by
  constructor
  · intro cand offer data t s e ht hs he hschool
    simp only [analyzeSingleOffer, ht, hs, he, hschool]
    simp [Bind.bind, Except.bind, Pure.pure, Except.pure]
  · intro cand offer h
    simp only [fallbackSchoolHit] at h
    simp only [fallbackScoring, h]
    split_ifs <;> simp

/-- C1 witness. -/
theorem C1_school_override_witness :
    (analyzeSingleOffer candA offerPlain true
      (.ok { score_technical := .jnum 80, score_structural := .jnum 90,
             score_experience := .jnum 100,
             is_school_scheme := .jbool true })).match_score = 0 ∧
    (fallbackScoring candA offerSchool).match_score ≤ 55 :=
  ⟨C1_school_override.1 candA offerPlain _ 80 90 100 rfl rfl rfl rfl,
   C1_school_override.2 candA offerSchool (by decide)⟩

end JobXpress

namespace JobXpress

/-! ### Claim C2 — score ranges and coercion -/

/-- C2 (counterexample): the scorer performs no clamping: an LLM response
with sub-scores 201/150/150 yields the composite `int(0.4*201 + 0.3*150 +
0.3*150) = 170`, outside `[0,100]`, and the out-of-range sub-scores are
attached unchanged. -/
theorem C2_counterexample :
    (analyzeSingleOffer candA offerPlain true (.ok dataOutOfRange)).match_score = 170 ∧
    ¬ (analyzeSingleOffer candA offerPlain true (.ok dataOutOfRange)).match_score ≤ 100 ∧
    (analyzeSingleOffer candA offerPlain true (.ok dataOutOfRange)).ai_scores =
      some (201, 150, 150) := by
  decide

/-- Shape of the LLM-path result when all three sub-score fields are
numeric: the weighted composite with the school override, and the raw
sub-scores attached. -/
theorem analyze_ok_eq (cand : CandidateProfile) (offer : JobOffer) (data : LLMData)
    (t s e : Int)
    (ht : data.score_technical.asScore = .ok t)
    (hs : data.score_structural.asScore = .ok s)
    (he : data.score_experience.asScore = .ok e) :
    analyzeSingleOffer cand offer true (.ok data) =
      { offer with
        match_score := if data.is_school_scheme.isTrueLit then 0
                       else weightedComposite t s e,
        ai_scores := some (t, s, e) } := by
  simp only [analyzeSingleOffer, ht, hs, he]
  simp [Bind.bind, Except.bind, Pure.pure, Except.pure]

/-- Bounds of the fallback heuristic score (base 40, bonuses up to +45,
penalty −30 floored at 0, capped at 75). -/
theorem fallback_match_score_bounds (cand : CandidateProfile) (offer : JobOffer) :
    0 ≤ (fallbackScoring cand offer).match_score ∧
    (fallbackScoring cand offer).match_score ≤ 75 := by
  simp only [fallbackScoring]
  split_ifs <;> simp

/-- The three sub-scores recorded by the fallback: identical, in `[0,100]`. -/
theorem fallback_sub_scores_bounds (cand : CandidateProfile) (offer : JobOffer)
    (t s e : Int) (h : (fallbackScoring cand offer).ai_scores = some (t, s, e)) :
    t = s ∧ s = e ∧ 0 ≤ t ∧ t ≤ 100 := by
  simp only [fallbackScoring] at h
  split_ifs at h <;> simp at h <;> omega

/-- C2 (amended): missing numeric fields default to 0, but there is no
clamping: the LLM-path composite and attached sub-scores lie in `[0,100]`
whenever the response's sub-scores do (and the composite is in `[0,100]`
unconditionally on the fallback path, whose recorded sub-scores are also in
`[0,100]`); for an out-of-range response the bound fails, as the
counterexample shows. -/
theorem C2_score_bounds :
    (∀ (cand : CandidateProfile) (offer : JobOffer) (data : LLMData) (t s e : Int),
      data.score_technical.asScore = .ok t →
      data.score_structural.asScore = .ok s →
      data.score_experience.asScore = .ok e →
      0 ≤ t → t ≤ 100 → 0 ≤ s → s ≤ 100 → 0 ≤ e → e ≤ 100 →
      0 ≤ (analyzeSingleOffer cand offer true (.ok data)).match_score ∧
      (analyzeSingleOffer cand offer true (.ok data)).match_score ≤ 100 ∧
      (analyzeSingleOffer cand offer true (.ok data)).ai_scores = some (t, s, e)) ∧
    (∀ (cand : CandidateProfile) (offer : JobOffer) (t s e : Int),
      0 ≤ (fallbackScoring cand offer).match_score ∧
      (fallbackScoring cand offer).match_score ≤ 100 ∧
      ((fallbackScoring cand offer).ai_scores = some (t, s, e) →
        0 ≤ t ∧ t ≤ 100 ∧ 0 ≤ s ∧ s ≤ 100 ∧ 0 ≤ e ∧ e ≤ 100)) := by
  constructor
  · intro cand offer data t s e ht hs he h0t h1t h0s h1s h0e h1e
    rw [analyze_ok_eq cand offer data t s e ht hs he]
    refine ⟨?_, ?_, rfl⟩ <;>
    · dsimp only
      split_ifs
      · omega
      · simp only [weightedComposite]
        rw [Int.tdiv_eq_ediv (by omega) (by omega)]
        omega
  · intro cand offer t s e
    obtain ⟨h0, h75⟩ := fallback_match_score_bounds cand offer
    refine ⟨h0, by omega, fun h => ?_⟩
    obtain ⟨hts, hse, h0t, h1t⟩ := fallback_sub_scores_bounds cand offer t s e h
    omega

/-- C2 witness. -/
theorem C2_score_bounds_witness :
    (0 ≤ (analyzeSingleOffer candA offerPlain true
        (.ok { score_technical := .jnum 80, score_structural := .jnum 90,
               score_experience := .jnum 100 })).match_score ∧
      (analyzeSingleOffer candA offerPlain true
        (.ok { score_technical := .jnum 80, score_structural := .jnum 90,
               score_experience := .jnum 100 })).match_score ≤ 100 ∧
      (analyzeSingleOffer candA offerPlain true
        (.ok { score_technical := .jnum 80, score_structural := .jnum 90,
               score_experience := .jnum 100 })).ai_scores = some (80, 90, 100)) ∧
    ((fallbackScoring candA offerClean).ai_scores = some (75, 75, 75) →
      0 ≤ (75 : Int) ∧ (75 : Int) ≤ 100 ∧ 0 ≤ (75 : Int) ∧ (75 : Int) ≤ 100 ∧
      0 ≤ (75 : Int) ∧ (75 : Int) ≤ 100) :=
  ⟨C2_score_bounds.1 candA offerPlain _ 80 90 100 rfl rfl rfl (by decide) (by decide)
      (by decide) (by decide) (by decide) (by decide),
   (C2_score_bounds.2 candA offerClean 75 75 75).2.2⟩

end JobXpress

namespace JobXpress

/-! ### Claims C3-C5 — deduplication -/

/-- C3 (counterexample): the dedup key is (company slug, title), not the
url: two postings from different companies sharing one apply URL are both
kept, so `url` is not unique in the deduplicated output. -/
theorem C3_counterexample :
    dedupFuzzy 0 [offerUrlDup1, offerUrlDup2] = [offerUrlDup1, offerUrlDup2] ∧
    offerUrlDup1.url = offerUrlDup2.url ∧
    offerUrlDup1 ≠ offerUrlDup2 := by
  decide

/-- The scan finds no key exactly when no key is a same-slug, ratio-> 90
match. -/
theorem findDup_eq_none_iff (slug tl : String) (s : SeenKeys) :
    findDup slug tl s = none ↔
      ∀ e ∈ s, ¬ (e.1.slug = slug ∧ fuzzRatio tl.data e.1.tl.data > 90) := by
  induction s with
  | nil => simp [findDup]
  | cons e rest ih =>
      simp only [findDup]
      split_ifs with h
      · simp only [reduceCtorEq, false_iff, not_forall]
        exact ⟨e, by simp, by simpa using h⟩
      · simpa [ih] using fun _ => h

/-- One dedup step preserves pairwise compatibility of the stored keys. -/
theorem dedupStep_keys_pairwise (now : Int) (st : List JobOffer × SeenKeys)
    (job : JobOffer)
    (h : (st.2.map (fun e => e.1)).Pairwise keyCompat) :
    (((dedupStep now st job).2).map (fun e => e.1)).Pairwise keyCompat := by
  obtain ⟨unique, seen⟩ := st
  simp only [dedupStep]
  cases hfd : findDup (companySlug job) (titleLower job) seen with
  | none =>
      simp only [List.map_append, List.pairwise_append]
      refine ⟨h, by simp, ?_⟩
      intro a ha b hb
      simp only [List.map_cons, List.map_nil, List.mem_singleton] at hb
      subst hb
      rw [findDup_eq_none_iff] at hfd
      obtain ⟨e, he, rfl⟩ := List.mem_map.mp ha
      exact fun hc => hfd e he ⟨hc.1, hc.2⟩
  | some val =>
      obtain ⟨k, idx, ed⟩ := val
      simp only at h ⊢
      cases hjd : parseDate now job.date_posted with
      | none => cases ed <;> exact h
      | some a =>
          cases ed with
          | none => exact h
          | some b =>
              dsimp only
              split_ifs with hlt
              · rw [List.map_map]
                have hfix : ((fun e : DKey × Nat × Option Int => e.1) ∘
                    (fun e => if e.1 = k then (k, idx, some a) else e)) =
                    (fun e : DKey × Nat × Option Int => e.1) := by
                  funext e
                  by_cases hek : e.1 = k <;> simp [hek]
                rw [hfix]
                exact h
              · exact h

/-- Folding any job list preserves pairwise key compatibility. -/
theorem dedupFold_keys_pairwise (now : Int) (jobs : List JobOffer) :
    ∀ (st : List JobOffer × SeenKeys),
      (st.2.map (fun e => e.1)).Pairwise keyCompat →
      (((jobs.foldl (dedupStep now) st).2).map (fun e => e.1)).Pairwise keyCompat := by
  induction jobs with
  | nil => intro st h; simpa using h
  | cons j rest ih => intro st h; exact ih _ (dedupStep_keys_pairwise now st j h)

/-- C3 (amended): what is unique in the dedup bookkeeping is the key
(normalized company slug, lowercased title): no two stored keys have the
same slug together with title similarity ratio > 90 (in particular all
keys are distinct). The `url` field plays no role in deduplication and may
repeat in the output, as the counterexample shows. -/
theorem C3_keys_unique (now : Int) (jobs : List JobOffer) :
    (((dedupRun now jobs).2).map (fun e => e.1)).Pairwise keyCompat :=
  dedupFold_keys_pairwise now jobs ([], []) (by simp)

/-- C4 (counterexample): with three same-company postings whose titles
chain through the threshold (`offerChainB` matches the first key, made by
`offerChainC`, and replaces it by date; `offerChainA` matches neither key),
the output keeps BOTH `offerChainA` and `offerChainB`, although that pair
has identical slug, ratio 92 > 90 and both dates parseable — so "keeps
exactly one of them, the later-dated one" fails on general inputs. -/
theorem C4_counterexample :
    companySlug offerChainA = companySlug offerChainB ∧
    fuzzRatio (titleLower offerChainB).data (titleLower offerChainA).data > 90 ∧
    (parseDate 0 offerChainA.date_posted).isSome = true ∧
    (parseDate 0 offerChainB.date_posted).isSome = true ∧
    offerChainA ≠ offerChainB ∧
    dedupFuzzy 0 [offerChainC, offerChainA, offerChainB] = [offerChainB, offerChainA] := by
  decide

/-- C4 (amended): for an input consisting of the two postings themselves,
identical company slug and ratio > 90 make the second a duplicate of the
first: exactly one survives, namely the newer-dated one when both dates
parse strictly ordered, the first posting otherwise. (On longer inputs a
third posting similar to only one of the pair can defeat this, as the
counterexample shows.) -/
theorem C4_pair_dedup (now : Int) (p q : JobOffer)
    (hslug : companySlug q = companySlug p)
    (hratio : fuzzRatio (titleLower q).data (titleLower p).data > 90) :
    dedupFuzzy now [p, q] = if newerDate now q p then [q] else [p] := by
  cases hq : parseDate now q.date_posted with
  | none =>
      cases hp : parseDate now p.date_posted <;>
      · simp only [dedupFuzzy, dedupRun, List.foldl, dedupStep, findDup]
        rw [if_pos ⟨hslug.symm, hratio⟩]
        simp [newerDate, hq, hp]
  | some a =>
      cases hp : parseDate now p.date_posted with
      | none =>
          simp only [dedupFuzzy, dedupRun, List.foldl, dedupStep, findDup]
          rw [if_pos ⟨hslug.symm, hratio⟩]
          simp [newerDate, hq, hp]
      | some b =>
          simp only [dedupFuzzy, dedupRun, List.foldl, dedupStep, findDup]
          rw [if_pos ⟨hslug.symm, hratio⟩]
          simp only [newerDate, hq, hp]
          by_cases hlt : b < a <;> simp [hlt, List.set]

/-- No element of a pairwise-non-duplicate list matches any key built from
postings it is non-duplicate with; folding therefore appends every posting
unchanged. -/
theorem dedupFold_nonDup (now : Int) :
    ∀ (l : List JobOffer) (u : List JobOffer) (s : SeenKeys),
      (∀ job ∈ l, findDup (companySlug job) (titleLower job) s = none) →
      l.Pairwise nonDupPair →
      (l.foldl (dedupStep now) (u, s)).1 = u ++ l := by
  intro l
  induction l with
  | nil => intro u s _ _; simp
  | cons j rest ih =>
      intro u s hfd hpw
      have hj := hfd j (by simp)
      have hstep : dedupStep now (u, s) j =
          (u ++ [j], s ++ [(⟨companySlug j, titleLower j⟩, u.length,
            parseDate now j.date_posted)]) := by
        simp [dedupStep, hj]
      simp only [List.foldl, hstep]
      rw [ih (u ++ [j]) _ ?_ (List.Pairwise.of_cons hpw)]
      · simp
      · intro job hjob
        rw [findDup_eq_none_iff]
        intro e he
        rw [List.mem_append] at he
        cases he with
        | inl h' =>
            have := hfd job (List.mem_cons_of_mem _ hjob)
            rw [findDup_eq_none_iff] at this
            exact this e h'
        | inr h' =>
            simp only [List.mem_singleton] at h'
            subst h'
            have hrel : nonDupPair j job := List.rel_of_pairwise_cons hpw hjob
            exact fun hc => hrel ⟨hc.1.symm, hc.2⟩

/-- C5 (amended): deduplication returns unchanged any list in which no
posting is a duplicate of an earlier one (same slug and ratio > 90); on
such lists it is idempotent. Unrestricted idempotence fails: the output of
one pass can itself contain a duplicate pair (see the counterexample). -/
theorem C5_pairwise_fixed (now : Int) (jobs : List JobOffer)
    (h : jobs.Pairwise nonDupPair) :
    dedupFuzzy now jobs = jobs := by
  have := dedupFold_nonDup now jobs [] []
    (by intro job _; simp [findDup]) h
  simpa [dedupFuzzy, dedupRun] using this

/-- C5 (counterexample): the dedup output of the three chained postings is
`[offerChainB, offerChainA]`, which still contains a duplicate pair;
running dedup again collapses it to `[offerChainB]`, so dedup is not
idempotent. -/
theorem C5_counterexample :
    dedupFuzzy 0 [offerChainC, offerChainA, offerChainB] = [offerChainB, offerChainA] ∧
    dedupFuzzy 0 (dedupFuzzy 0 [offerChainC, offerChainA, offerChainB]) = [offerChainB] ∧
    ([offerChainB] : List JobOffer) ≠ [offerChainB, offerChainA] := by
  decide

/-- C4 witness. -/
theorem C4_pair_dedup_witness :
    dedupFuzzy 0 [offerDateP, offerDateQ] = [offerDateQ] := by
  rw [C4_pair_dedup 0 offerDateP offerDateQ (by decide) (by decide)]
  decide

/-- C5 witness. -/
theorem C5_pairwise_fixed_witness :
    dedupFuzzy 0 [offerUrlDup1, offerUrlDup2] = [offerUrlDup1, offerUrlDup2] :=
  C5_pairwise_fixed 0 [offerUrlDup1, offerUrlDup2] (by decide)

end JobXpress

namespace JobXpress

/-! ### Claim C6 — circuit breaker -/

/-- C6 (counterexample): a success while CLOSED does not reset the failure
count. With threshold 3, after fail, fail, success the count is still 2
(not 0 as the claim's "success while CLOSED resets the count" requires),
and a single further failure opens the breaker even though only one
consecutive failure occurred. -/
theorem C6_counterexample :
    (cbRun cbFresh [(0, .error "x"), (1, .error "x")]).state = "CLOSED" ∧
    (cbRun cbFresh [(0, .error "x"), (1, .error "x")]).failure_count = 2 ∧
    (cbRun cbFresh [(0, .error "x"), (1, .error "x"), (2, .ok ())]).failure_count = 2 ∧
    (cbRun cbFresh [(0, .error "x"), (1, .error "x"), (2, .ok ())]).state = "CLOSED" ∧
    (cbRun cbFresh [(0, .error "x"), (1, .error "x"), (2, .ok ()), (3, .error "x")]).state
      = "OPEN" := by
  decide

/-- `checkRecovery` does nothing on a CLOSED breaker. -/
theorem checkRecovery_closed (cb : CircuitBreaker) (now : Int)
    (h : cb.state = "CLOSED") : cb.checkRecovery now = cb := by
  cases hl : cb.last_failure_time <;>
    simp [CircuitBreaker.checkRecovery, hl, h]

/-- State of the fresh breaker after `k ≤ n` consecutive failures: the
count is `k` and the breaker opens exactly upon the `n`-th failure. -/
theorem cbAfterFails_eq (n : Nat) (hn : 1 ≤ n) (rt t0 : Int) :
    ∀ k, k ≤ n →
      cbRun { failure_threshold := n, recovery_timeout := rt }
          (List.replicate k (t0, .error "boom")) =
        { failure_count := k, failure_threshold := n, recovery_timeout := rt,
          last_failure_time := if k = 0 then none else some t0,
          state := if k < n then "CLOSED" else "OPEN" } := by
  intro k
  induction k with
  | zero =>
      intro _
      simp only [List.replicate, cbRun, List.foldl]
      simp [show 0 < n from by omega]
  | succ k ih =>
      intro hk
      have hk' : k ≤ n := Nat.le_of_succ_le hk
      have hkn : k < n := hk
      rw [List.replicate_succ']
      rw [show cbRun { failure_threshold := n, recovery_timeout := rt }
            (List.replicate k (t0, Except.error "boom") ++ [(t0, Except.error "boom")]) =
          ((cbRun { failure_threshold := n, recovery_timeout := rt }
            (List.replicate k (t0, Except.error "boom"))).call t0 (Except.error "boom")).1
        from List.foldl_append ..]
      rw [ih hk', if_pos hkn]
      simp only [CircuitBreaker.call]
      rw [checkRecovery_closed _ t0 rfl]
      dsimp only
      rw [if_neg (by decide : ¬ ("CLOSED" : String) = "OPEN")]
      by_cases hge : n ≤ k + 1
      · rw [if_pos hge, if_neg (by omega : ¬ k + 1 < n)]
        simp
      · rw [if_neg hge, if_pos (by omega : k + 1 < n)]
        simp

/-- While OPEN, before the cooldown has elapsed, a call short-circuits
with the synthetic failure and leaves the breaker unchanged, whatever the
outcome argument (the wrapped function is not invoked). -/
theorem call_open_cold (cb : CircuitBreaker) (now : Int) (o : Except String Unit)
    (hst : cb.state = "OPEN") (t : Int) (hl : cb.last_failure_time = some t)
    (hcool : ¬ now - t > cb.recovery_timeout) :
    cb.call now o = (cb, .error "Circuit is OPEN - Service unavailable") := by
  have hcr : cb.checkRecovery now = cb := by
    simp [CircuitBreaker.checkRecovery, hl, hst, hcool]
  simp [CircuitBreaker.call, hcr, hst]

/-- Once the cooldown has strictly elapsed, a successful probe returns the
breaker to CLOSED with the failure count reset. -/
theorem call_open_probe_ok (cb : CircuitBreaker) (now : Int) (v : Unit)
    (hst : cb.state = "OPEN") (t : Int) (hl : cb.last_failure_time = some t)
    (hcool : now - t > cb.recovery_timeout) :
    cb.call now (.ok v) =
      ({ cb with state := "CLOSED", failure_count := 0 }, .ok v) := by
  have hcr : cb.checkRecovery now = { cb with state := "HALF_OPEN" } := by
    simp [CircuitBreaker.checkRecovery, hl, hst, hcool]
  simp [CircuitBreaker.call, hcr]

/-- C6 (amended): the breaker opens exactly when the total failure count
since the last reset reaches the threshold — the count is NOT reset by a
success while CLOSED (only a successful HALF_OPEN probe resets it), so the
counted failures need not be consecutive; while OPEN and before the
cooldown has elapsed a call short-circuits with the synthetic failure
without invoking the wrapped function (the result is independent of the
outcome argument); once the cooldown has strictly elapsed a probe is let
through, and a successful probe returns the breaker to CLOSED with the
count reset to 0. -/
theorem C6_breaker (n : Nat) (hn : 1 ≤ n) (rt t0 : Int) :
    ((cbAfterFails n rt t0).state = "OPEN" ∧
     (cbAfterFails n rt t0).failure_count = n) ∧
    (∀ (now : Int) (o : Except String Unit), ¬ now - t0 > rt →
      (cbAfterFails n rt t0).call now o =
        (cbAfterFails n rt t0, .error "Circuit is OPEN - Service unavailable")) ∧
    (∀ now : Int, now - t0 > rt →
      ((cbAfterFails n rt t0).call now (.ok ())).1.state = "CLOSED" ∧
      ((cbAfterFails n rt t0).call now (.ok ())).1.failure_count = 0) ∧
    (∀ (cb : CircuitBreaker) (now : Int) (v : Unit), cb.state = "CLOSED" →
      cb.call now (.ok v) = (cb, .ok v)) ∧
    (∀ (cb : CircuitBreaker) (now : Int) (msg : String), cb.state = "CLOSED" →
      (cb.call now (.error msg : Except String Unit)).1.failure_count
          = cb.failure_count + 1 ∧
      (cb.call now (.error msg : Except String Unit)).1.state =
        (if cb.failure_count + 1 ≥ cb.failure_threshold then "OPEN" else "CLOSED")) := by
  have heq : cbAfterFails n rt t0 =
      { failure_count := n, failure_threshold := n, recovery_timeout := rt,
        last_failure_time := some t0, state := "OPEN" } := by
    unfold cbAfterFails
    rw [cbAfterFails_eq n hn rt t0 n le_rfl]
    simp [show ¬ n = 0 from by omega, show ¬ n < n from by omega]
  refine ⟨by rw [heq]; exact ⟨rfl, rfl⟩, ?_, ?_, ?_, ?_⟩
  · intro now o hcool
    rw [heq] at *
    exact call_open_cold _ now o rfl t0 rfl hcool
  · intro now hcool
    rw [heq] at *
    rw [call_open_probe_ok _ now () rfl t0 rfl hcool]
    exact ⟨rfl, rfl⟩
  · intro cb now v h
    simp only [CircuitBreaker.call]
    rw [checkRecovery_closed cb now h, h]
    rw [if_neg (by decide : ¬ ("CLOSED" : String) = "OPEN")]
    rw [if_neg (by decide : ¬ ("CLOSED" : String) = "HALF_OPEN")]
  · intro cb now msg h
    simp only [CircuitBreaker.call]
    rw [checkRecovery_closed cb now h, h]
    rw [if_neg (by decide : ¬ ("CLOSED" : String) = "OPEN")]
    by_cases hge : cb.failure_count + 1 ≥ cb.failure_threshold
    · rw [if_pos hge, if_pos hge]
      exact ⟨rfl, rfl⟩
    · rw [if_neg hge, if_neg hge]
      exact ⟨rfl, rfl⟩

/-- C6 witness. -/
theorem C6_breaker_witness :
    ((cbAfterFails 3 180 0).state = "OPEN" ∧
     (cbAfterFails 3 180 0).failure_count = 3) ∧
    (cbAfterFails 3 180 0).call 100 (.ok ()) =
      (cbAfterFails 3 180 0, .error "Circuit is OPEN - Service unavailable") ∧
    ((cbAfterFails 3 180 0).call 200 (.ok ())).1.state = "CLOSED" ∧
    ((cbAfterFails 3 180 0).call 200 (.ok ())).1.failure_count = 0 ∧
    cbFresh.call 7 (.ok ()) = (cbFresh, .ok ()) ∧
    (cbFresh.call 7 (.error "x" : Except String Unit)).1.failure_count
      = cbFresh.failure_count + 1 :=
  ⟨(C6_breaker 3 (by decide) 180 0).1,
   (C6_breaker 3 (by decide) 180 0).2.1 100 (.ok ()) (by decide),
   ((C6_breaker 3 (by decide) 180 0).2.2.1 200 (by decide)).1,
   ((C6_breaker 3 (by decide) 180 0).2.2.1 200 (by decide)).2,
   (C6_breaker 3 (by decide) 180 0).2.2.2.1 cbFresh 7 () rfl,
   ((C6_breaker 3 (by decide) 180 0).2.2.2.2 cbFresh 7 "x" rfl).1⟩

/-! ### Claim C7 — failure isolation in the pipeline -/

/-- Aggregation of sources that all failed or returned nothing is empty. -/
theorem aggregateGo_empty (names : List String) (results : List (Except String (List JobOffer))) :
    ∀ i : Nat, (∀ r ∈ results, (∃ msg, r = .error msg) ∨ r = .ok []) →
      aggregateGo names i results = [] := by
  induction results with
  | nil => intro i _; rfl
  | cons r rest ih =>
      intro i h
      have hr := h r (by simp)
      have hrest := ih (i + 1) (fun r' hr' => h r' (List.mem_cons_of_mem _ hr'))
      simp only [aggregateGo]
      rcases hr with ⟨msg, rfl⟩ | rfl <;> simpa using hrest

/-- C7: source, enrichment and LLM failures are isolated. (i) The pipeline
is a total function of the per-source outcomes: when every configured
source raises or returns zero postings, `find_jobs_v2` returns the empty
list rather than an error. (ii) A failed LLM call (timeout, HTTP error,
quota, malformed JSON) degrades the posting to the deterministic fallback
score — a value in `[0,75]` — instead of propagating. -/
theorem C7_no_propagation :
    (∀ (now : Int) (cand : CandidateProfile) (filters : Option Filters) (limit : Nat)
       (results : List (Except String (List JobOffer))) (fetches : List (Option String)),
      (∀ r ∈ results, (∃ msg, r = .error msg) ∨ r = .ok []) →
      findJobsV2 now cand filters limit results fetches = []) ∧
    (∀ (cand : CandidateProfile) (offer : JobOffer) (msg : String),
      analyzeSingleOffer cand offer true (.error msg) = fallbackScoring cand offer ∧
      0 ≤ (fallbackScoring cand offer).match_score ∧
      (fallbackScoring cand offer).match_score ≤ 75) := by
  constructor
  · intro now cand filters limit results fetches h
    simp only [findJobsV2, aggregateSources]
    rw [aggregateGo_empty _ results 0 h]
    simp
  · intro cand offer msg
    exact ⟨rfl, fallback_match_score_bounds cand offer⟩

/-- C7 witness. -/
theorem C7_no_propagation_witness :
    findJobsV2 0 candA none 25 [.error "boom", .ok []] [] = [] ∧
    analyzeSingleOffer candA offerPlain true (.error "timeout")
      = fallbackScoring candA offerPlain :=
  ⟨C7_no_propagation.1 0 candA none 25 [.error "boom", .ok []] []
      (by
        intro r hr
        simp only [List.mem_cons, List.mem_singleton] at hr
        rcases hr with rfl | rfl | h
        · exact Or.inl ⟨"boom", rfl⟩
        · exact Or.inr rfl
        · exact absurd h (by simp)),
   (C7_no_propagation.2 candA offerPlain "timeout").1⟩

/-! ### Claim C8 — fallback on title and location match -/

/-- C8: on LLM failure, a posting whose title contains the candidate's
title, whose location contains the candidate's location, and whose
description carries no school keyword receives a fallback score between 70
and 75 (in fact exactly 75 = 40 + 20 + 15, with the optional +10 remote
bonus absorbed by the cap at 75). -/
theorem C8_fallback_title_location (cand : CandidateProfile) (offer : JobOffer)
    (ht : containsSub (lowerStr offer.title) (lowerStr cand.job_title) = true)
    (hl : containsSub (lowerStr (offer.location.getD "")) (lowerStr cand.location) = true)
    (hschool : fallbackSchoolHit offer = false) :
    70 ≤ (fallbackScoring cand offer).match_score ∧
    (fallbackScoring cand offer).match_score ≤ 75 := by
  simp only [fallbackSchoolHit] at hschool
  simp only [fallbackScoring, ht, hl, hschool]
  split_ifs <;> simp_all

/-- C8 witness. -/
theorem C8_fallback_title_location_witness :
    70 ≤ (fallbackScoring candA offerClean).match_score ∧
    (fallbackScoring candA offerClean).match_score ≤ 75 :=
  C8_fallback_title_location candA offerClean (by decide) (by decide) (by decide)

/-! ### Claim C9 — agency phrasing filter -/

/-- C9 (counterexample): the agency pattern list is French-only. A posting
whose description contains the English phrase "on behalf of our client" is
NOT flagged: with `exclude_agencies = true` it stays in the filtered
output, with `is_agency = false` attached — contradicting the claim, which
expects it flagged and excluded. -/
theorem C9_counterexample :
    containsSub (lowerStr offerEnAgency.description) "on behalf of our client" = true ∧
    isAgency (lowerStr offerEnAgency.description) = false ∧
    applySmartFilters 0 ⟨some true, none⟩ candA [offerEnAgency] =
      [{ offerEnAgency with salary_warning := true, is_agency := false }] := by
  decide

/-- C9 (amended): the filter detects agency postings through the ten
French `AGENCY_PATTERNS` (e.g. "cabinet de recrutement"); "on behalf of
our client" is not among them. A posting matching one of these patterns
gets `is_agency = true` and is excluded exactly when `exclude_agencies` is
true (or defaulted); when `exclude_agencies` is explicitly false the
posting stays in the output, flagged `is_agency = true`, provided the
freshness rule does not drop it (e.g. its date does not parse). -/
theorem C9_agency_filter :
    (∀ (now : Int) (filters : Filters) (cand : CandidateProfile) (job : JobOffer),
      isAgency (lowerStr job.description) = true →
      filters.exclude_agencies.getD true = true →
      smartFilterOne now filters cand job = none) ∧
    (∀ (now : Int) (filters : Filters) (cand : CandidateProfile) (job : JobOffer),
      isAgency (lowerStr job.description) = true →
      filters.exclude_agencies = some false →
      parseDate now job.date_posted = none →
      smartFilterOne now filters cand job =
        some { job with
               salary_warning := ! hasSalaryInfo (lowerStr job.description),
               is_agency := true }) := by
  constructor
  · intro now filters cand job hag hx
    simp [smartFilterOne, hag, hx]
  · intro now filters cand job hag hx hdate
    simp [smartFilterOne, hag, hx, hdate]

/-- C9 witness. -/
theorem C9_agency_filter_witness :
    smartFilterOne 0 ⟨some true, none⟩ candA
      { offerClean with description := "cabinet de recrutement" } = none ∧
    smartFilterOne 0 ⟨some false, none⟩ candA
      { offerClean with description := "cabinet de recrutement" } =
      some { offerClean with
             description := "cabinet de recrutement",
             salary_warning := false,
             is_agency := true } :=
  ⟨C9_agency_filter.1 0 ⟨some true, none⟩ candA _ (by decide) (by decide),
   by
    rw [C9_agency_filter.2 0 ⟨some false, none⟩ candA
      { offerClean with description := "cabinet de recrutement" } (by decide) rfl (by decide)]
    decide⟩

/-! ### Claim C10 — default filter values -/

/-- C10: with no filter set (both keys absent) the post-filter defaults to
`exclude_agencies = true` and `max_days_old = 14`: every posting in the
output is unflagged as agency, and any posting whose parsed date is older
than 14 days must have survived through a strong title match. -/
theorem C10_default_filters (now : Int) (cand : CandidateProfile)
    (jobs : List JobOffer) (j : JobOffer)
    (hj : j ∈ applySmartFilters now {} cand jobs) :
    isAgency (lowerStr j.description) = false ∧
    j.is_agency = false ∧
    (∀ d, parseDate now j.date_posted = some d → d < now - 14 * 86400 →
      isTitleMatch j.title cand.job_title = true) := by
  rw [applySmartFilters, List.mem_filterMap] at hj
  obtain ⟨a, ha, hsome⟩ := hj
  simp only [smartFilterOne, Option.getD] at hsome
  by_cases hag : isAgency (lowerStr a.description)
  · simp [hag] at hsome
  · rw [Bool.not_eq_true] at hag
    rw [if_neg (by simp [hag])] at hsome
    cases hpd : parseDate now a.date_posted with
    | none =>
        rw [hpd] at hsome
        simp only [Option.some.injEq] at hsome
        subst hsome
        refine ⟨by simpa using hag, by simpa using hag, ?_⟩
        intro d hd
        rw [show ({ a with
            salary_warning := ! hasSalaryInfo (lowerStr a.description),
            is_agency := isAgency (lowerStr a.description) } : JobOffer).date_posted
          = a.date_posted from rfl, hpd] at hd
        exact absurd hd (by simp)
    | some d0 =>
        rw [hpd] at hsome
        dsimp only at hsome
        by_cases hdrop : (decide (d0 < now - 14 * 86400) &&
            ! isTitleMatch a.title cand.job_title) = true
        · rw [if_pos hdrop] at hsome
          exact absurd hsome (by simp)
        · rw [if_neg hdrop] at hsome
          simp only [Option.some.injEq] at hsome
          subst hsome
          refine ⟨by simpa using hag, by simpa using hag, ?_⟩
          intro d hd hold
          rw [show ({ a with
              salary_warning := ! hasSalaryInfo (lowerStr a.description),
              is_agency := isAgency (lowerStr a.description) } : JobOffer).date_posted
            = a.date_posted from rfl, hpd] at hd
          simp only [Option.some.injEq] at hd
          subst hd
          simp only [Bool.and_eq_true, Bool.not_eq_true', decide_eq_true_eq,
            not_and] at hdrop
          have := hdrop hold
          simpa using this

/-- C10 witness. -/
theorem C10_default_filters_witness :
    isAgency (lowerStr ({ offerClean with
        salary_warning := true, is_agency := false } : JobOffer).description) = false ∧
    ({ offerClean with
       salary_warning := true, is_agency := false } : JobOffer).is_agency = false ∧
    (∀ d, parseDate 0 ({ offerClean with
        salary_warning := true, is_agency := false } : JobOffer).date_posted = some d →
      d < 0 - 14 * 86400 →
      isTitleMatch ({ offerClean with
          salary_warning := true, is_agency := false } : JobOffer).title
        candA.job_title = true) :=
  C10_default_filters 0 candA [offerClean] _ (by decide)

end JobXpress
